import Mathlib

/-!
Verification of `nonlinear_solvers/solvers.py`: Newton-Raphson iteration,
bisection, and the combined `solve` strategy.

Scalars are modelled as rationals `ℚ`; the caller-supplied functions `f` and
`df` are total functions `ℚ → ℚ`.  Python exceptions become an explicit
`Except` error channel: `ConvergenceError` is `SolverError.convergenceFailure`
(carrying the originating method name), the `ValueError` raised by `bisection`
on an invalid bracket is `SolverError.invalidBracket`, and the
`ZeroDivisionError` produced by the update `x_0 - f(x_0)/df(x_0)` when
`df(x_0) == 0` is `SolverError.numericFault`.  The `while` loops are unrolled
by structural recursion on the remaining iteration budget: a loop that raises
once `count > max_its` executes its body at most `max_its + 1` times, so the
recursion starts with `max_its` spare passes and raises when they run out.
-/

/-- Error kinds of the solver module: `ConvergenceError` with the raising
method's name, the invalid-bracket `ValueError` of `bisection`, and the
uncaught numeric fault (`ZeroDivisionError`) from Newton's division. -/
inductive SolverError : Type
  | convergenceFailure : String → SolverError
  | invalidBracket : SolverError
  | numericFault : SolverError
  deriving Repr, DecidableEq

/-- One Newton update `x - f(x)/df(x)` (with Lean's total division; the
executable loop below checks `df x = 0` separately and faults there, so on
every trajectory the loop actually follows, this agrees with Python). -/
def newtonStep (f df : ℚ → ℚ) (x : ℚ) : ℚ :=
  x - f x / df x

/-- The pure Newton iterate sequence `x_{k+1} = x_k - f(x_k)/df(x_k)`
starting from `x`. -/
def newtonIter (f df : ℚ → ℚ) (x : ℚ) : ℕ → ℚ
  | 0 => x
  | k + 1 => newtonStep f df (newtonIter f df x k)

/-- The `while` loop of `newton_raphson` (`solvers.py` lines 34-41).
`remaining` is the number of loop passes still allowed before the counter
check `count > max_its` raises; each pass first evaluates the guard
`abs(f(x_0)) >= eps`, then performs the update `x_0 - f(x_0)/df(x_0)`
(faulting if `df(x_0) == 0`, exactly as Python's division does, and before
the counter check, exactly as in the source line order), and only then
raises `ConvergenceError` if the budget is exhausted. -/
def newtonLoop (f df : ℚ → ℚ) (eps : ℚ) : ℚ → ℕ → Except SolverError ℚ
  | x, remaining =>
    if |f x| < eps then .ok x
    else if df x = 0 then .error .numericFault
    else
      match remaining with
      | 0 => .error (.convergenceFailure "newton-raphson")
      | r + 1 => newtonLoop f df eps (newtonStep f df x) r

/-- `newton_raphson(f, df, x_0, eps, max_its)` from `solvers.py`. -/
def newton_raphson (f df : ℚ → ℚ) (x_0 : ℚ) (eps : ℚ) (max_its : ℕ) :
    Except SolverError ℚ :=
  newtonLoop f df eps x_0 max_its

/-- Instrumented copy of `newtonLoop` that also counts how many times the
loop guard `abs(f(x_0)) >= eps` is evaluated (once per pass, including the
pass that faults or raises). -/
def newtonLoopCounted (f df : ℚ → ℚ) (eps : ℚ) :
    ℚ → ℕ → Except SolverError ℚ × ℕ
  | x, remaining =>
    if |f x| < eps then (.ok x, 1)
    else if df x = 0 then (.error .numericFault, 1)
    else
      match remaining with
      | 0 => (.error (.convergenceFailure "newton-raphson"), 1)
      | r + 1 =>
        let p := newtonLoopCounted f df eps (newtonStep f df x) r
        (p.1, p.2 + 1)

/-- Unfolding equation of `newtonLoop` when the budget is exhausted. -/
theorem newtonLoop_zero (f df : ℚ → ℚ) (eps x : ℚ) :
    newtonLoop f df eps x 0 =
      if |f x| < eps then .ok x
      else if df x = 0 then .error .numericFault
      else .error (.convergenceFailure "newton-raphson") := rfl

/-- Unfolding equation of `newtonLoop` with at least one pass left. -/
theorem newtonLoop_succ (f df : ℚ → ℚ) (eps x : ℚ) (r : ℕ) :
    newtonLoop f df eps x (r + 1) =
      if |f x| < eps then .ok x
      else if df x = 0 then .error .numericFault
      else newtonLoop f df eps (newtonStep f df x) r := rfl

/-- Unfolding equation of `newtonLoopCounted` when the budget is exhausted. -/
theorem newtonLoopCounted_zero (f df : ℚ → ℚ) (eps x : ℚ) :
    newtonLoopCounted f df eps x 0 =
      if |f x| < eps then (.ok x, 1)
      else if df x = 0 then (.error .numericFault, 1)
      else (.error (.convergenceFailure "newton-raphson"), 1) := rfl

/-- Unfolding equation of `newtonLoopCounted` with at least one pass left. -/
theorem newtonLoopCounted_succ (f df : ℚ → ℚ) (eps x : ℚ) (r : ℕ) :
    newtonLoopCounted f df eps x (r + 1) =
      if |f x| < eps then (.ok x, 1)
      else if df x = 0 then (.error .numericFault, 1)
      else ((newtonLoopCounted f df eps (newtonStep f df x) r).1,
            (newtonLoopCounted f df eps (newtonStep f df x) r).2 + 1) := rfl

/-- The instrumented loop computes the same result as `newtonLoop`. -/
theorem newtonLoopCounted_fst (f df : ℚ → ℚ) (eps : ℚ) :
    ∀ (r : ℕ) (x : ℚ), (newtonLoopCounted f df eps x r).1 = newtonLoop f df eps x r := by
  intro r
  induction r with
  | zero =>
    intro x
    rw [newtonLoopCounted_zero, newtonLoop_zero]
    split
    · rfl
    · split <;> rfl
  | succ r ih =>
    intro x
    rw [newtonLoopCounted_succ, newtonLoop_succ]
    split
    · rfl
    · split
      · rfl
      · exact ih (newtonStep f df x)

/-- The `while` loop of `bisection` (`solvers.py` lines 77-91).  Each pass
computes the midpoint `x_temp = (x_0 + x_1)/2` and `f_test = f(x_temp)`,
returns `x_temp` if `abs(f_test) < eps`, otherwise replaces `x_0` by the
midpoint when `f_test >= 0` and `x_1` otherwise.  `remaining` counts the
passes still allowed before `count > max_its` raises.  (In the source, the
pass that exhausts the budget recomputes the next midpoint before raising;
that value is discarded and `f` is pure, so the observable behaviour is
identical.) -/
def bisectionLoop (f : ℚ → ℚ) (eps : ℚ) : ℚ → ℚ → ℕ → Except SolverError ℚ
  | x_0, x_1, remaining =>
    let x_temp := (x_0 + x_1) / 2
    if |f x_temp| < eps then .ok x_temp
    else
      match remaining with
      | 0 => .error (.convergenceFailure "bisection")
      | r + 1 =>
        if 0 ≤ f x_temp then bisectionLoop f eps x_temp x_1 r
        else bisectionLoop f eps x_0 x_temp r

/-- `bisection(f, x_0, x_1, eps, max_its)` from `solvers.py`: reject the
bracket when `f(x_0) * f(x_1) >= 0`, otherwise reorder so that
`f(x_0) >= 0 > f(x_1)` and run the loop. -/
def bisection (f : ℚ → ℚ) (x_0 x_1 : ℚ) (eps : ℚ) (max_its : ℕ) :
    Except SolverError ℚ :=
  let f0 := f x_0
  let f1 := f x_1
  if 0 ≤ f0 * f1 then .error .invalidBracket
  else if f0 < 0 then bisectionLoop f eps x_1 x_0 max_its
  else bisectionLoop f eps x_0 x_1 max_its

/-- `solve(f, df, x_0, x_1, eps, max_its_n, max_its_b)` from `solvers.py`:
try Newton-Raphson; catch exactly `ConvergenceError` and fall back to
bisection; let every other error propagate. -/
def solve (f df : ℚ → ℚ) (x_0 x_1 : ℚ) (eps : ℚ)
    (max_its_n max_its_b : ℕ) : Except SolverError ℚ :=
  match newton_raphson f df x_0 eps max_its_n with
  | .ok x => .ok x
  | .error (.convergenceFailure _) => bisection f x_0 x_1 eps max_its_b
  | .error e => .error e

/-- Unfolding equation of `bisectionLoop` when the budget is exhausted. -/
theorem bisectionLoop_zero (f : ℚ → ℚ) (eps x_0 x_1 : ℚ) :
    bisectionLoop f eps x_0 x_1 0 =
      if |f ((x_0 + x_1) / 2)| < eps then .ok ((x_0 + x_1) / 2)
      else .error (.convergenceFailure "bisection") := rfl

/-- Unfolding equation of `bisectionLoop` with at least one pass left. -/
theorem bisectionLoop_succ (f : ℚ → ℚ) (eps x_0 x_1 : ℚ) (r : ℕ) :
    bisectionLoop f eps x_0 x_1 (r + 1) =
      if |f ((x_0 + x_1) / 2)| < eps then .ok ((x_0 + x_1) / 2)
      else if 0 ≤ f ((x_0 + x_1) / 2) then bisectionLoop f eps ((x_0 + x_1) / 2) x_1 r
      else bisectionLoop f eps x_0 ((x_0 + x_1) / 2) r := rfl

/-- Shifting the start of the Newton iterate sequence by one step. -/
theorem newtonIter_step (f df : ℚ → ℚ) (x : ℚ) :
    ∀ k : ℕ, newtonIter f df (newtonStep f df x) k = newtonIter f df x (k + 1) := by
  intro k
  induction k with
  | zero => rfl
  | succ k ih => rw [newtonIter, ih]; rfl

/-- The midpoint of two rationals lies in their closed hull. -/
theorem mid_between (x_0 x_1 : ℚ) :
    min x_0 x_1 ≤ (x_0 + x_1) / 2 ∧ (x_0 + x_1) / 2 ≤ max x_0 x_1 := by
  rcases le_total x_0 x_1 with h | h
  · rw [min_eq_left h, max_eq_right h]
    constructor <;> linarith
  · rw [min_eq_right h, max_eq_left h]
    constructor <;> linarith

/-- The bisection loop body can only converge or exhaust its budget; it never
produces the invalid-bracket error. -/
theorem bisectionLoop_ne_invalidBracket (f : ℚ → ℚ) (eps : ℚ) :
    ∀ (r : ℕ) (x_0 x_1 : ℚ),
      bisectionLoop f eps x_0 x_1 r ≠ .error .invalidBracket := by
  intro r
  induction r with
  | zero =>
    intro x_0 x_1
    rw [bisectionLoop_zero]
    split <;> simp
  | succ r ih =>
    intro x_0 x_1
    rw [bisectionLoop_succ]
    split
    · simp
    · split
      · exact ih _ _
      · exact ih _ _

/-- C1: `solve` returns Newton-Raphson's result when that call succeeds, and
on Newton-Raphson's `ConvergenceError` it returns exactly the result of
`bisection f x_0 x_1 eps max_its_b`, so any failure or error of that
bisection call (invalid bracket included) propagates unchanged. -/
theorem solve_newton_then_bisection (f df : ℚ → ℚ) (x_0 x_1 eps : ℚ)
    (max_its_n max_its_b : ℕ) :
    (∀ x : ℚ, newton_raphson f df x_0 eps max_its_n = .ok x →
      solve f df x_0 x_1 eps max_its_n max_its_b = .ok x) ∧
    (∀ s : String,
      newton_raphson f df x_0 eps max_its_n = .error (.convergenceFailure s) →
      solve f df x_0 x_1 eps max_its_n max_its_b =
        bisection f x_0 x_1 eps max_its_b) := by
  constructor
  · intro x h
    simp [solve, h]
  · intro s h
    simp [solve, h]

/-- Witness for C1: a run where Newton-Raphson converges at once, and a run
where it exhausts a zero budget and `solve` hands over to `bisection`. -/
theorem solve_newton_then_bisection_witness :
    solve (fun x => x) (fun _ => 1) 0 1 1 2 2 = .ok 0 ∧
    solve (fun _ => (1 : ℚ)) (fun _ => 1) 0 1 (1/2) 0 2 =
      bisection (fun _ => (1 : ℚ)) 0 1 (1/2) 2 :=
  ⟨(solve_newton_then_bisection (fun x => x) (fun _ => 1) 0 1 1 2 2).1 0
      (by norm_num [newton_raphson, newtonLoop_succ]),
   (solve_newton_then_bisection (fun _ => (1 : ℚ)) (fun _ => 1) 0 1 (1/2) 0 2).2
      "newton-raphson" (by norm_num [newton_raphson, newtonLoop_zero])⟩

/-- C6: a numeric fault in the Newton phase (division by zero in
`f(x)/df(x)`) is not caught by `solve`: it propagates to the caller, and the
result does not depend on the bisection bracket or budget, so bisection is
never invoked. -/
theorem solve_propagates_newton_fault (f df : ℚ → ℚ) (x_0 eps : ℚ)
    (max_its_n : ℕ)
    (h : newton_raphson f df x_0 eps max_its_n = .error .numericFault) :
    ∀ (x_1 : ℚ) (max_its_b : ℕ),
      solve f df x_0 x_1 eps max_its_n max_its_b = .error .numericFault := by
  intro x_1 max_its_b
  simp [solve, h]

/-- Witness for C6: `df = 0` at the start faults immediately, and `solve`
returns that fault even though `[0, 1]` would be a valid bracket for
`bisection` with `f(x) = 2x - 1`. -/
theorem solve_propagates_newton_fault_witness :
    solve (fun x => 2 * x - 1) (fun _ => 0) 0 1 (1/2) 3 3 =
      .error .numericFault :=
  solve_propagates_newton_fault (fun x => 2 * x - 1) (fun _ => 0) 0 (1/2) 3
    (by norm_num [newton_raphson, newtonLoop_succ]) 1 3

/-- C7: if the starting point already satisfies `abs(f(x_0)) < eps`, then
`newton_raphson` returns `x_0` unchanged after a single guard evaluation and
zero iterations; in particular the result is the same for every derivative
argument, i.e. `df` is never used. -/
theorem newton_immediate_convergence (f df : ℚ → ℚ) (x_0 eps : ℚ) (max_its : ℕ)
    (h : |f x_0| < eps) :
    newton_raphson f df x_0 eps max_its = .ok x_0 ∧
    (newtonLoopCounted f df eps x_0 max_its).2 = 1 ∧
    (∀ df' : ℚ → ℚ, newton_raphson f df' x_0 eps max_its = .ok x_0) := by
  refine ⟨?_, ?_, fun df' => ?_⟩
  · cases max_its with
    | zero => rw [newton_raphson, newtonLoop_zero, if_pos h]
    | succ r => rw [newton_raphson, newtonLoop_succ, if_pos h]
  · cases max_its with
    | zero => rw [newtonLoopCounted_zero, if_pos h]
    | succ r => rw [newtonLoopCounted_succ, if_pos h]
  · cases max_its with
    | zero => rw [newton_raphson, newtonLoop_zero, if_pos h]
    | succ r => rw [newton_raphson, newtonLoop_succ, if_pos h]

/-- Witness for C7: `f(x) = x - 3` at `x_0 = 3` is already within tolerance. -/
theorem newton_immediate_convergence_witness :
    newton_raphson (fun x => x - 3) (fun _ => 1) 3 (1/2) 20 = .ok 3 ∧
    (newtonLoopCounted (fun x => x - 3) (fun _ => 1) (1/2) 3 20).2 = 1 :=
  ⟨(newton_immediate_convergence (fun x => x - 3) (fun _ => 1) 3 (1/2) 20
      (by norm_num)).1,
   (newton_immediate_convergence (fun x => x - 3) (fun _ => 1) 3 (1/2) 20
      (by norm_num)).2.1⟩

/-- C10: with `max_its = 0` and a start outside tolerance, `newton_raphson`
still performs one update pass (one guard evaluation) before the budget check
raises, so a zero derivative at `x_0` produces the division fault and a
nonzero one the `ConvergenceError`. -/
theorem newton_budget_zero (f df : ℚ → ℚ) (x_0 eps : ℚ)
    (h : eps ≤ |f x_0|) :
    newton_raphson f df x_0 eps 0 =
      (if df x_0 = 0 then .error .numericFault
       else .error (.convergenceFailure "newton-raphson")) ∧
    (newtonLoopCounted f df eps x_0 0).2 = 1 := by
  constructor
  · rw [newton_raphson, newtonLoop_zero, if_neg (not_lt.mpr h)]
  · rw [newtonLoopCounted_zero, if_neg (not_lt.mpr h)]
    split <;> rfl

/-- Witness for C10: both the zero-derivative branch (division fault) and the
nonzero-derivative branch (`ConvergenceError`) at budget `0`. -/
theorem newton_budget_zero_witness :
    newton_raphson (fun _ => (1 : ℚ)) (fun _ => 0) 0 (1/2) 0 =
      .error .numericFault ∧
    newton_raphson (fun _ => (1 : ℚ)) (fun _ => 1) 0 (1/2) 0 =
      .error (.convergenceFailure "newton-raphson") := by
  constructor
  · have h := (newton_budget_zero (fun _ => (1 : ℚ)) (fun _ => 0) 0 (1/2)
      (by norm_num)).1
    simpa using h
  · have h := (newton_budget_zero (fun _ => (1 : ℚ)) (fun _ => 1) 0 (1/2)
      (by norm_num)).1
    simpa using h

/-- C3: `bisection` raises the invalid-bracket error exactly when
`f(x_0) * f(x_1) >= 0`, checked before any bisection step; in particular an
endpoint exactly at a root is rejected as an invalid bracket rather than
treated as a success. -/
theorem bisection_invalid_bracket_iff (f : ℚ → ℚ) (x_0 x_1 eps : ℚ)
    (max_its : ℕ) :
    (bisection f x_0 x_1 eps max_its = .error .invalidBracket ↔
      0 ≤ f x_0 * f x_1) ∧
    (f x_0 = 0 → bisection f x_0 x_1 eps max_its = .error .invalidBracket) := by
  constructor
  · constructor
    · intro h
      by_contra hp
      rw [bisection] at h
      simp only [if_neg hp] at h
      split at h
      · exact bisectionLoop_ne_invalidBracket f eps max_its x_1 x_0 h
      · exact bisectionLoop_ne_invalidBracket f eps max_its x_0 x_1 h
    · intro hp
      rw [bisection]
      simp only [if_pos hp]
  · intro h0
    rw [bisection]
    simp only [h0, zero_mul, le_refl, if_pos]

/-- Witness for C3: `f(x) = x` with `x_0 = 0` puts an exact root at an
endpoint and is rejected. -/
theorem bisection_invalid_bracket_iff_witness :
    bisection (fun x => x) 0 1 (1/2) 20 = .error .invalidBracket :=
  (bisection_invalid_bracket_iff (fun x => x) 0 1 (1/2) 20).2 (by norm_num)

/-- C8: in a bisection pass whose midpoint is still outside tolerance, the
endpoint `x_0` (the one the sign convention `f(x_0) >= 0` is kept on) is
replaced by the midpoint when `f` at the midpoint is `>= 0` — zero included —
and otherwise the endpoint `x_1` is replaced. -/
theorem bisection_tiebreak (f : ℚ → ℚ) (eps x_0 x_1 : ℚ) (r : ℕ)
    (h : eps ≤ |f ((x_0 + x_1) / 2)|) :
    bisectionLoop f eps x_0 x_1 (r + 1) =
      (if 0 ≤ f ((x_0 + x_1) / 2)
       then bisectionLoop f eps ((x_0 + x_1) / 2) x_1 r
       else bisectionLoop f eps x_0 ((x_0 + x_1) / 2) r) ∧
    (f ((x_0 + x_1) / 2) = 0 →
      bisectionLoop f eps x_0 x_1 (r + 1) =
        bisectionLoop f eps ((x_0 + x_1) / 2) x_1 r) := by
  constructor
  · rw [bisectionLoop_succ, if_neg (not_lt.mpr h)]
  · intro h0
    rw [bisectionLoop_succ, if_neg (not_lt.mpr h), if_pos (le_of_eq h0.symm)]

/-- Witness for C8: a pass on the bracket `[4, 0]` with positive midpoint
value replaces `x_0`. -/
theorem bisection_tiebreak_witness :
    (1 : ℚ) ≤ |(fun x : ℚ => x) ((4 + 0) / 2)| ∧
    bisectionLoop (fun x : ℚ => x) 1 4 0 3 =
      (if (0 : ℚ) ≤ (fun x : ℚ => x) ((4 + 0) / 2)
       then bisectionLoop (fun x : ℚ => x) 1 ((4 + 0) / 2) 0 2
       else bisectionLoop (fun x : ℚ => x) 1 4 ((4 + 0) / 2) 2) :=
  ⟨by norm_num,
   (bisection_tiebreak (fun x : ℚ => x) 1 4 0 2 (by norm_num)).1⟩

/-- C9: after the orientation swap the loop is entered with
`f(x_0) >= 0 > f(x_1)`, and every pass that does not converge hands the loop
a new bracket that still satisfies the sign convention, is contained in the
previous bracket, and replaces one endpoint by the current midpoint. -/
theorem bisection_bracket_invariant :
    (∀ (f : ℚ → ℚ) (x_0 x_1 eps : ℚ) (max_its : ℕ),
      f x_0 * f x_1 < 0 →
      ∃ y_0 y_1 : ℚ,
        bisection f x_0 x_1 eps max_its = bisectionLoop f eps y_0 y_1 max_its ∧
        0 ≤ f y_0 ∧ f y_1 < 0 ∧
        ((y_0 = x_0 ∧ y_1 = x_1) ∨ (y_0 = x_1 ∧ y_1 = x_0))) ∧
    (∀ (f : ℚ → ℚ) (eps x_0 x_1 : ℚ) (r : ℕ),
      0 ≤ f x_0 → f x_1 < 0 → eps ≤ |f ((x_0 + x_1) / 2)| →
      ∃ y_0 y_1 : ℚ,
        bisectionLoop f eps x_0 x_1 (r + 1) = bisectionLoop f eps y_0 y_1 r ∧
        0 ≤ f y_0 ∧ f y_1 < 0 ∧
        min x_0 x_1 ≤ min y_0 y_1 ∧ max y_0 y_1 ≤ max x_0 x_1 ∧
        ((y_0 = (x_0 + x_1) / 2 ∧ y_1 = x_1) ∨
         (y_0 = x_0 ∧ y_1 = (x_0 + x_1) / 2))) := by
  constructor
  · intro f x_0 x_1 eps max_its hprod
    rw [bisection]
    simp only [if_neg (not_le.mpr hprod)]
    rcases lt_trichotomy (f x_0) 0 with h0 | h0 | h0
    · refine ⟨x_1, x_0, ?_, ?_, h0, Or.inr ⟨rfl, rfl⟩⟩
      · rw [if_pos h0]
      · nlinarith
    · exact absurd hprod (by rw [h0, zero_mul]; exact lt_irrefl 0)
    · refine ⟨x_0, x_1, ?_, le_of_lt h0, ?_, Or.inl ⟨rfl, rfl⟩⟩
      · rw [if_neg (not_lt.mpr (le_of_lt h0))]
      · nlinarith
  · intro f eps x_0 x_1 r h0 h1 hmid
    have hm := mid_between x_0 x_1
    rcases le_or_lt 0 (f ((x_0 + x_1) / 2)) with hs | hs
    · refine ⟨(x_0 + x_1) / 2, x_1, ?_, hs, h1, ?_, ?_, Or.inl ⟨rfl, rfl⟩⟩
      · rw [bisectionLoop_succ, if_neg (not_lt.mpr hmid), if_pos hs]
      · exact le_min hm.1 (min_le_right x_0 x_1)
      · exact max_le hm.2 (le_max_right x_0 x_1)
    · refine ⟨x_0, (x_0 + x_1) / 2, ?_, h0, hs, ?_, ?_, Or.inr ⟨rfl, rfl⟩⟩
      · rw [bisectionLoop_succ, if_neg (not_lt.mpr hmid), if_neg (not_le.mpr hs)]
      · exact le_min (min_le_left x_0 x_1) hm.1
      · exact max_le (le_max_left x_0 x_1) hm.2

/-- Witness for C9: establishment on the bracket `[-1, 1]` for `f(x) = x`
(which swaps the endpoints), and one preservation pass on the oriented
bracket `(4, 0)`. -/
theorem bisection_bracket_invariant_witness :
    (∃ y_0 y_1 : ℚ,
      bisection (fun x : ℚ => x) (-1) 1 (1/2) 3 =
        bisectionLoop (fun x : ℚ => x) (1/2) y_0 y_1 3 ∧
      0 ≤ y_0 ∧ y_1 < 0 ∧
      ((y_0 = -1 ∧ y_1 = 1) ∨ (y_0 = 1 ∧ y_1 = -1))) ∧
    (∃ y_0 y_1 : ℚ,
      bisectionLoop (fun x : ℚ => x) 1 4 (-2) 3 =
        bisectionLoop (fun x : ℚ => x) 1 y_0 y_1 2 ∧
      0 ≤ y_0 ∧ y_1 < 0 ∧
      min (4 : ℚ) (-2) ≤ min y_0 y_1 ∧ max y_0 y_1 ≤ max (4 : ℚ) (-2) ∧
      ((y_0 = (4 + -2) / 2 ∧ y_1 = -2) ∨ (y_0 = 4 ∧ y_1 = (4 + -2) / 2))) := by
  constructor
  · exact bisection_bracket_invariant.1 (fun x : ℚ => x) (-1) 1 (1/2) 3
      (by norm_num)
  · exact bisection_bracket_invariant.2 (fun x : ℚ => x) 1 4 (-2) 2
      (by norm_num) (by norm_num) (by norm_num)

/-- Partial correctness of the bisection loop: a returned value is a midpoint
within tolerance, and it stays inside any interval containing both current
endpoints. -/
theorem bisectionLoop_ok_bounds (f : ℚ → ℚ) (eps lo hi : ℚ) :
    ∀ (r : ℕ) (x_0 x_1 x : ℚ), lo ≤ x_0 → x_0 ≤ hi → lo ≤ x_1 → x_1 ≤ hi →
      bisectionLoop f eps x_0 x_1 r = .ok x →
      |f x| < eps ∧ lo ≤ x ∧ x ≤ hi := by
  intro r
  induction r with
  | zero =>
    intro x_0 x_1 x h0l h0h h1l h1h h
    rw [bisectionLoop_zero] at h
    split at h
    · cases h
      refine ⟨by assumption, by linarith, by linarith⟩
    · cases h
  | succ r ih =>
    intro x_0 x_1 x h0l h0h h1l h1h h
    rw [bisectionLoop_succ] at h
    split at h
    · cases h
      refine ⟨by assumption, by linarith, by linarith⟩
    · split at h
      · exact ih ((x_0 + x_1) / 2) x_1 x (by linarith) (by linarith) h1l h1h h
      · exact ih x_0 ((x_0 + x_1) / 2) x h0l h0h (by linarith) (by linarith) h

/-- C2: on a bracket whose endpoint values have strictly opposite signs,
a value returned by `bisection` satisfies `abs(f(x)) < eps` and lies in the
closed interval spanned by the two initial endpoints. -/
theorem bisection_result_in_bracket (f : ℚ → ℚ) (x_0 x_1 eps : ℚ)
    (max_its : ℕ) (x : ℚ)
    (_hsign : (f x_0 < 0 ∧ 0 < f x_1) ∨ (0 < f x_0 ∧ f x_1 < 0))
    (hok : bisection f x_0 x_1 eps max_its = .ok x) :
    |f x| < eps ∧ min x_0 x_1 ≤ x ∧ x ≤ max x_0 x_1 := by
  rw [bisection] at hok
  split at hok
  · cases hok
  · split at hok
    · exact bisectionLoop_ok_bounds f eps (min x_0 x_1) (max x_0 x_1) max_its
        x_1 x_0 x (min_le_right x_0 x_1) (le_max_right x_0 x_1)
        (min_le_left x_0 x_1) (le_max_left x_0 x_1) hok
    · exact bisectionLoop_ok_bounds f eps (min x_0 x_1) (max x_0 x_1) max_its
        x_0 x_1 x (min_le_left x_0 x_1) (le_max_left x_0 x_1)
        (min_le_right x_0 x_1) (le_max_right x_0 x_1) hok

/-- Witness for C2: `f(x) = x - 1/8` on the bracket `[-1, 1]` returns `1/8`,
which is within tolerance and inside the bracket. -/
theorem bisection_result_in_bracket_witness :
    ((fun x : ℚ => x - 1/8) (-1) < 0 ∧ 0 < (fun x : ℚ => x - 1/8) 1) ∧
    bisection (fun x : ℚ => x - 1/8) (-1) 1 (1/16) 4 = .ok (1/8) ∧
    (|(fun x : ℚ => x - 1/8) (1/8)| < 1/16 ∧
      min (-1 : ℚ) 1 ≤ 1/8 ∧ (1/8 : ℚ) ≤ max (-1 : ℚ) 1) :=
  ⟨⟨by norm_num, by norm_num⟩,
   by norm_num [bisection, bisectionLoop_succ, bisectionLoop_zero, abs_lt],
   bisection_result_in_bracket (fun x : ℚ => x - 1/8) (-1) 1 (1/16) 4 (1/8)
     (Or.inl ⟨by norm_num, by norm_num⟩)
     (by norm_num [bisection, bisectionLoop_succ, bisectionLoop_zero, abs_lt])⟩

/-- A successful Newton-Raphson run returns the first iterate of the Newton
sequence that is within tolerance. -/
theorem newtonLoop_ok_first (f df : ℚ → ℚ) (eps : ℚ) :
    ∀ (r : ℕ) (x_0 x : ℚ), newtonLoop f df eps x_0 r = .ok x →
      ∃ k : ℕ, x = newtonIter f df x_0 k ∧ |f x| < eps ∧
        ∀ j, j < k → eps ≤ |f (newtonIter f df x_0 j)| := by
  intro r
  induction r with
  | zero =>
    intro x_0 x h
    rw [newtonLoop_zero] at h
    split at h
    · cases h
      exact ⟨0, rfl, by assumption, fun j hj => absurd hj (Nat.not_lt_zero j)⟩
    · split at h <;> cases h
  | succ r ih =>
    intro x_0 x h
    rw [newtonLoop_succ] at h
    split at h
    · cases h
      exact ⟨0, rfl, by assumption, fun j hj => absurd hj (Nat.not_lt_zero j)⟩
    · split at h
      · cases h
      · obtain ⟨k, hk, hlt, hfirst⟩ := ih (newtonStep f df x_0) x h
        refine ⟨k + 1, ?_, hlt, ?_⟩
        · rw [hk, newtonIter_step]
        · intro j hj
          cases j with
          | zero =>
            exact not_lt.mp (by assumption)
          | succ j =>
            rw [← newtonIter_step]
            exact hfirst j (Nat.lt_of_succ_lt_succ hj)

/-- C5: whenever `newton_raphson` returns normally, its result is the first
element of the Newton iterate sequence starting at `x_0` whose `f`-value is
within tolerance. -/
theorem newton_result_first_iterate (f df : ℚ → ℚ) (x_0 eps : ℚ)
    (max_its : ℕ) (x : ℚ)
    (h : newton_raphson f df x_0 eps max_its = .ok x) :
    ∃ k : ℕ, x = newtonIter f df x_0 k ∧ |f x| < eps ∧
      ∀ j, j < k → eps ≤ |f (newtonIter f df x_0 j)| :=
  newtonLoop_ok_first f df eps max_its x_0 x h

/-- Witness for C5: `f(x) = x` from `x_0 = 4` converges to the iterate `0`
after one rejected point. -/
theorem newton_result_first_iterate_witness :
    newton_raphson (fun x : ℚ => x) (fun _ => 1) 4 (1/2) 2 = .ok 0 ∧
    (∃ k : ℕ, (0 : ℚ) = newtonIter (fun x : ℚ => x) (fun _ => 1) 4 k ∧
      |(fun x : ℚ => x) (0 : ℚ)| < 1/2 ∧
      ∀ j, j < k → (1/2 : ℚ) ≤ |(fun x : ℚ => x) (newtonIter (fun x : ℚ => x) (fun _ => 1) 4 j)|) :=
  ⟨by norm_num [newton_raphson, newtonLoop_succ, newtonStep, abs_lt],
   newton_result_first_iterate (fun x : ℚ => x) (fun _ => 1) 4 (1/2) 2 0
     (by norm_num [newton_raphson, newtonLoop_succ, newtonStep, abs_lt])⟩

/-- The Newton loop ends in `ConvergenceError` exactly when, along the whole
budgeted stretch of the iterate sequence, the tolerance is never met and the
derivative never vanishes. -/
theorem newtonLoop_cf_iff (f df : ℚ → ℚ) (eps : ℚ) :
    ∀ (r : ℕ) (x_0 : ℚ),
      (newtonLoop f df eps x_0 r = .error (.convergenceFailure "newton-raphson") ↔
        ∀ j, j ≤ r → eps ≤ |f (newtonIter f df x_0 j)| ∧
          df (newtonIter f df x_0 j) ≠ 0) := by
  intro r
  induction r with
  | zero =>
    intro x_0
    rw [newtonLoop_zero]
    constructor
    · intro h j hj
      rw [Nat.le_zero.mp hj]
      split at h
      · cases h
      · split at h
        · cases h
        · exact ⟨not_lt.mp (by assumption), by assumption⟩
    · intro h
      obtain ⟨h1, h2⟩ := h 0 (le_refl 0)
      have h1' : eps ≤ |f x_0| := h1
      have h2' : df x_0 ≠ 0 := h2
      rw [if_neg (not_lt.mpr h1'), if_neg h2']
  | succ r ih =>
    intro x_0
    rw [newtonLoop_succ]
    by_cases h1 : |f x_0| < eps
    · rw [if_pos h1]
      constructor
      · intro h
        cases h
      · intro h
        exact absurd h1 (not_lt.mpr (h 0 (Nat.zero_le _)).1)
    · rw [if_neg h1]
      by_cases h2 : df x_0 = 0
      · rw [if_pos h2]
        constructor
        · intro h
          cases h
        · intro h
          exact absurd h2 (h 0 (Nat.zero_le _)).2
      · rw [if_neg h2]
        rw [ih (newtonStep f df x_0)]
        constructor
        · intro h j hj
          cases j with
          | zero => exact ⟨not_lt.mp h1, h2⟩
          | succ j =>
            rw [← newtonIter_step]
            exact h j (Nat.le_of_succ_le_succ hj)
        · intro h j hj
          rw [newtonIter_step]
          exact h (j + 1) (Nat.succ_le_succ hj)

/-- C4: `newton_raphson` raises `ConvergenceError` exactly when the iterate
sequence stays outside tolerance (with nonvanishing derivative) for the whole
budget, and on `f(x) = x^2 + 1` with `max_its = 5` the failure arrives after
exactly 6 evaluations of the loop guard. -/
theorem newton_cf_characterization :
    (∀ (f df : ℚ → ℚ) (x_0 eps : ℚ) (max_its : ℕ),
      newton_raphson f df x_0 eps max_its =
          .error (.convergenceFailure "newton-raphson") ↔
        ∀ j, j ≤ max_its → eps ≤ |f (newtonIter f df x_0 j)| ∧
          df (newtonIter f df x_0 j) ≠ 0) ∧
    newton_raphson (fun x => x^2 + 1) (fun _ => 1) 0 (1/100000) 5 =
      .error (.convergenceFailure "newton-raphson") ∧
    (newtonLoopCounted (fun x => x^2 + 1) (fun _ => 1) (1/100000) 0 5).2 = 6 := by
  refine ⟨fun f df x_0 eps max_its => newtonLoop_cf_iff f df eps max_its x_0,
    ?_, ?_⟩
  · norm_num [newton_raphson, newtonLoop_succ, newtonLoop_zero, newtonStep,
      abs_lt]
  · norm_num [newtonLoopCounted_succ, newtonLoopCounted_zero, newtonStep,
      abs_lt]

/-- Witness for C4: the characterization applied to the constant function
`f = 1`, which can never meet the tolerance. -/
theorem newton_cf_characterization_witness :
    newton_raphson (fun _ => (1 : ℚ)) (fun _ => 1) 0 (1/2) 1 =
      .error (.convergenceFailure "newton-raphson") :=
  (newton_cf_characterization.1 (fun _ => (1 : ℚ)) (fun _ => 1) 0 (1/2) 1).mpr
    (by intro j hj; constructor <;> norm_num)
